import Mathlib

/-!
Verification development for the biothings data-indexing control plane
(`biothings/hub/dataindex`): the Indexer three-step pipeline, its batched
dispatch loop, the ColdHotIndexer composite, IndexManager routing,
repository-config templating, and the snapshot lifecycle state machine.

The Python source is shallowly embedded: stateful orchestration code becomes
explicit state passing, remote-system interaction becomes oracle inputs
(existence flags, completion-event traces, successive poll responses), and
fallible code returns `Except`.
-/

namespace Biothings

/-! ## Indexer.pre_index (indexer.py, lines 272-302)

The destination Elasticsearch index is abstracted by whether it exists
(`destExists`).  `pre_index` either raises (an `Except.error` carrying the
message built in the source) or succeeds with the list of index-lifecycle
actions it performed against the client, in order. -/

/-- An action `pre_index` performs on the destination index. `deleteIndex`
models `indices.delete(..., ignore_unavailable=True)`, which succeeds whether
or not the index exists; `createIndex` models `indices.create(...)`. -/
inductive PreAction
  | deleteIndex
  | createIndex
  deriving DecidableEq, Repr

/-- Embedding of `Indexer.pre_index(mode)`: dispatch on `mode` as in the
source. `mode='index'` requires the destination to be absent, then creates it;
`'resume'`/`'merge'` require it to exist and skip creation (early `return`);
`'purge'` unconditionally issues a delete ignoring unavailability, then
creates; any other mode raises `ValueError`. -/
def pre_index (destExists : Bool) (mode : String) : Except String (List PreAction) :=
  if mode = "index" then
    if destExists then
      .error ("Index already exists, use mode purge or resume")
    else
      .ok [.createIndex]
  else if mode = "resume" ∨ mode = "merge" then
    if destExists then
      .ok []
    else
      .error ("Index does not exist.")
  else if mode = "purge" then
    .ok [.deleteIndex, .createIndex]
  else
    .error ("Invalid mode: " ++ mode)

/-- `pre_index` raised: result is an `Except.error`. -/
def preIndexRaises (destExists : Bool) (mode : String) : Prop :=
  ∃ e, pre_index destExists mode = .error e

instance (destExists : Bool) (mode : String) :
    Decidable (preIndexRaises destExists mode) := by
  unfold preIndexRaises
  cases h : pre_index destExists mode with
  | ok a => exact isFalse (by simp [h])
  | error e => exact isTrue ⟨e, rfl⟩

/-- **C2.** Mode/state preconditions of the pre-index step: `mode="index"`
raises iff the destination exists (otherwise creates it); `mode="resume"` and
`mode="merge"` raise iff the destination does not exist and perform no
creation when it does; `mode="purge"` succeeds for present and absent
destinations alike, deleting (ignoring unavailability) and then creating;
any other mode raises. -/
theorem pre_index_mode_preconditions :
    (preIndexRaises true "index" ∧ pre_index false "index" = .ok [.createIndex])
    ∧ (∀ m, (m = "resume" ∨ m = "merge") →
        preIndexRaises false m ∧ pre_index true m = .ok [])
    ∧ (∀ e, pre_index e "purge" = .ok [.deleteIndex, .createIndex])
    ∧ (∀ e m, m ≠ "index" → m ≠ "resume" → m ≠ "merge" → m ≠ "purge" →
        preIndexRaises e m) := by
  refine ⟨⟨⟨_, rfl⟩, rfl⟩, ?_, ?_, ?_⟩
  · rintro m (rfl | rfl) <;> exact ⟨⟨_, rfl⟩, rfl⟩
  · intro e; cases e <;> rfl
  · intro e m h1 h2 h3 h4
    refine ⟨"Invalid mode: " ++ m, ?_⟩
    simp [pre_index, h1, h2, h3, h4]

/-- Witness for C2 at concrete inputs: `m := "merge"` for the second clause,
`e := true` for the third, `(e, m) := (false, "frobnicate")` for the last. -/
theorem pre_index_mode_preconditions_witness :
    (preIndexRaises true "index" ∧ pre_index false "index" = .ok [.createIndex])
    ∧ (preIndexRaises false "merge" ∧ pre_index true "merge" = .ok [])
    ∧ pre_index true "purge" = .ok [.deleteIndex, .createIndex]
    ∧ preIndexRaises false "frobnicate" :=
  ⟨pre_index_mode_preconditions.1,
   pre_index_mode_preconditions.2.1 "merge" (Or.inr rfl),
   pre_index_mode_preconditions.2.2.1 true,
   pre_index_mode_preconditions.2.2.2 false "frobnicate"
     (by decide) (by decide) (by decide) (by decide)⟩

/-! ## Indexer.do_index (indexer.py, lines 304-383)

The dispatch loop is embedded as a deterministic function of an oracle trace:
at each cooperative suspension point (`yield from asyncio.sleep(0.0)` at the
top of iteration `i`) the event loop may run completion callbacks of
already-dispatched jobs; `deliv i` lists those completions in the order the
callbacks run. After the loop, `asyncio.gather(*jobs)` observes the remaining
completions in the order `gatherEv`.

The batch count comes from `Schedule`; `indexer_schedule.py` is not among the
provided sources. Modelled from the spec: a `Schedule(total, batch_size)`
iterates batch indices `0..ceil(total/batch_size)-1`, accumulates `finished`
from completion callbacks, and `completed(ignore_mismatch)` asserts
`finished == total` unless `ignore_mismatch` is set. -/

/-- Result of one dispatched batch job: the per-batch document count returned
by the worker, or the exception it raised. -/
inductive EvRes
  | ok (c : Nat)
  | err (msg : String)
  deriving DecidableEq, Repr

/-- A completion event: job `job` (identified by its batch number) resolved
with result `res`; its `batch_finished` callback runs at that point. -/
structure Event where
  job : Nat
  res : EvRes
  deriving DecidableEq, Repr

/-- Does one of the events carry an exception? -/
def hasErr (evs : List Event) : Bool :=
  evs.any fun e => match e.res with
    | .ok _ => false
    | .err _ => true

/-- The value of the `error` cell after running the `batch_finished`
callbacks for `evs` in order, starting from `acc` (each failing callback
overwrites the cell: `error = exc`). -/
def lastErrAux (acc : Option String) : List Event → Option String
  | [] => acc
  | e :: rest =>
      lastErrAux (match e.res with
        | .ok _ => acc
        | .err m => some m) rest

/-- Sum of the document counts of the successful events. -/
def okSum (evs : List Event) : Nat :=
  (evs.map fun e => match e.res with
    | .ok c => c
    | .err _ => 0).sum

/-- Local state of one `do_index` run: the `Schedule`'s `finished` counter,
the `error` cell, the jobs whose futures are done, the dispatched batch
numbers in dispatch order, and the jobs on which `cancel()` was called. -/
structure DState where
  finished : Nat
  error : Option String
  done : List Nat
  dispatched : List Nat
  cancelled : List Nat
  deriving DecidableEq, Repr

/-- The `batch_finished` completion callback: adds the batch's count to
`schedule.finished`, or records the exception in the `error` cell
(overwriting any previous one); either way the job's future is now done. -/
def applyEvent (s : DState) (e : Event) : DState :=
  match e.res with
  | .ok c => { s with finished := s.finished + c, done := s.done.concat e.job }
  | .err m => { s with error := some m, done := s.done.concat e.job }

/-- Run the completion callbacks for a list of events in order. -/
def applyEvents (s : DState) (evs : List Event) : DState :=
  evs.foldl applyEvent s

/-- The dispatch loop of `do_index`, iterating batch numbers `i` with `rem`
iterations remaining. Each iteration: suspend (delivering `deliv i`), check
the `error` cell — if set, cancel every dispatched job whose future is not
done and raise the recorded error — otherwise dispatch batch `i`. -/
def runLoop (deliv : Nat → List Event) : Nat → Nat → DState → DState × Option String
  | _, 0, s => (s, none)
  | i, rem + 1, s =>
      let s1 := applyEvents s (deliv i)
      match s1.error with
      | some e =>
          ({ s1 with cancelled := s1.dispatched.filter fun j => ¬ s1.done.contains j },
           some e)
      | none => runLoop deliv (i + 1) rem { s1 with dispatched := s1.dispatched.concat i }

/-- `asyncio.gather(*jobs)`: observe remaining completions in order; the
first job that raised makes the gather raise that exception (the still
pending jobs are left untouched — not cancelled). -/
def runGather (s : DState) : List Event → DState × Option String
  | [] => (s, none)
  | e :: rest =>
      let s1 := applyEvent s e
      match e.res with
      | .err m => (s1, some m)
      | .ok _ => runGather s1 rest

/-- Modelled from the spec: `Schedule.completed(ignore_mismatch)`
(`indexer_schedule.py`, not among the provided sources) asserts
`finished == total` unless `ignore_mismatch` is set. -/
def schedule_completed (finished total : Nat) (ignore_mismatch : Bool) :
    Except String Unit :=
  if ignore_mismatch then .ok () else
  if finished = total then .ok () else .error "schedule mismatch"

/-- Number of batches of a `Schedule(total, batch_size)`:
`ceil(total / batch_size)`. -/
def numBatches (total batch_size : Nat) : Nat :=
  (total + batch_size - 1) / batch_size

/-- Observable outcome of one `do_index` run. -/
structure DoIndexRun where
  finished : Nat
  done : List Nat
  dispatched : List Nat
  cancelled : List Nat
  outcome : Except String Nat
  deriving Repr

/-- Embedding of `Indexer.do_index(job_manager, batch_size, ids, mode)` for a
source of `total` ids: run the dispatch loop over all
`numBatches total batch_size` batches; if it raised, propagate; otherwise
gather all dispatched jobs (raising the first observed exception, without
cancellation); then `schedule.completed(ignore_mismatch=(mode == 'resume'))`;
on success return `total`. -/
def do_index (total batch_size : Nat) (mode : String)
    (deliv : Nat → List Event) (gatherEv : List Event) : DoIndexRun :=
  match runLoop deliv 0 (numBatches total batch_size) ⟨0, none, [], [], []⟩ with
  | (s, some e) => ⟨s.finished, s.done, s.dispatched, s.cancelled, .error e⟩
  | (s, none) =>
      match runGather s gatherEv with
      | (s', some e) => ⟨s'.finished, s'.done, s'.dispatched, s'.cancelled, .error e⟩
      | (s', none) =>
          match schedule_completed s'.finished total (mode = "resume") with
          | .error e => ⟨s'.finished, s'.done, s'.dispatched, s'.cancelled, .error e⟩
          | .ok _ => ⟨s'.finished, s'.done, s'.dispatched, s'.cancelled, .ok total⟩

/-! ### Basic facts about the callback machinery -/

theorem applyEvent_dispatched (s : DState) (e : Event) :
    (applyEvent s e).dispatched = s.dispatched := by
  cases h : e.res <;> simp [applyEvent, h]

theorem applyEvent_cancelled (s : DState) (e : Event) :
    (applyEvent s e).cancelled = s.cancelled := by
  cases h : e.res <;> simp [applyEvent, h]

theorem applyEvent_finished (s : DState) (e : Event) :
    (applyEvent s e).finished = s.finished +
      (match e.res with | .ok c => c | .err _ => 0) := by
  cases h : e.res <;> simp [applyEvent, h]

theorem applyEvent_error (s : DState) (e : Event) :
    (applyEvent s e).error =
      (match e.res with | .ok _ => s.error | .err m => some m) := by
  cases h : e.res <;> simp [applyEvent, h]

theorem applyEvents_dispatched (s : DState) (evs : List Event) :
    (applyEvents s evs).dispatched = s.dispatched := by
  induction evs generalizing s with
  | nil => rfl
  | cons e rest ih =>
      rw [applyEvents, List.foldl_cons, ← applyEvents, ih, applyEvent_dispatched]

theorem applyEvents_cancelled (s : DState) (evs : List Event) :
    (applyEvents s evs).cancelled = s.cancelled := by
  induction evs generalizing s with
  | nil => rfl
  | cons e rest ih =>
      rw [applyEvents, List.foldl_cons, ← applyEvents, ih, applyEvent_cancelled]

theorem applyEvents_error (s : DState) (evs : List Event) :
    (applyEvents s evs).error = lastErrAux s.error evs := by
  induction evs generalizing s with
  | nil => rfl
  | cons e rest ih =>
      rw [applyEvents, List.foldl_cons, ← applyEvents, ih, lastErrAux]
      cases h : e.res <;> simp [applyEvent, h]

theorem applyEvents_finished (s : DState) (evs : List Event) :
    (applyEvents s evs).finished = s.finished + okSum evs := by
  induction evs generalizing s with
  | nil => simp [applyEvents, okSum]
  | cons e rest ih =>
      rw [applyEvents, List.foldl_cons, ← applyEvents, ih, applyEvent_finished]
      simp [okSum, Nat.add_assoc]

theorem lastErrAux_of_not_hasErr (acc : Option String) (evs : List Event)
    (h : hasErr evs = false) : lastErrAux acc evs = acc := by
  induction evs generalizing acc with
  | nil => rfl
  | cons e rest ih =>
      rw [hasErr, List.any_cons, Bool.or_eq_false_iff] at h
      rw [lastErrAux]
      cases hr : e.res with
      | ok c => exact ih acc h.2
      | err m => rw [hr] at h; simp at h

/-! ### The dispatch loop on error-free traces -/

/-- The state reached by the dispatch loop when no iteration raises: apply
each suspension point's callbacks, then dispatch the batch. -/
def cleanRun (deliv : Nat → List Event) : Nat → Nat → DState → DState
  | _, 0, s => s
  | i, rem + 1, s =>
      cleanRun deliv (i + 1) rem
        { applyEvents s (deliv i) with
          dispatched := (applyEvents s (deliv i)).dispatched.concat i }

theorem runLoop_succ_of_error_none (deliv : Nat → List Event) (i rem : Nat)
    (s : DState) (h : (applyEvents s (deliv i)).error = none) :
    runLoop deliv i (rem + 1) s =
      runLoop deliv (i + 1) rem
        { applyEvents s (deliv i) with
          dispatched := (applyEvents s (deliv i)).dispatched.concat i } := by
  simp only [runLoop]
  split
  · rename_i e heq
    rw [h] at heq
    simp at heq
  · rfl

theorem runLoop_succ_of_error_some (deliv : Nat → List Event) (i rem : Nat)
    (s : DState) (e : String) (h : (applyEvents s (deliv i)).error = some e) :
    runLoop deliv i (rem + 1) s =
      ({ applyEvents s (deliv i) with
         cancelled := (applyEvents s (deliv i)).dispatched.filter
           fun j => ¬ (applyEvents s (deliv i)).done.contains j }, some e) := by
  simp only [runLoop]
  split
  · rename_i e' heq
    rw [h] at heq
    cases heq
    rfl
  · rename_i heq
    rw [h] at heq
    simp at heq

theorem runLoop_clean (deliv : Nat → List Event) :
    ∀ (rem i : Nat) (s : DState), s.error = none →
    (∀ j, j < rem → hasErr (deliv (i + j)) = false) →
    runLoop deliv i rem s = (cleanRun deliv i rem s, none) := by
  intro rem
  induction rem with
  | zero => intro i s _ _; rfl
  | succ rem ih =>
      intro i s hs h
      have herr : (applyEvents s (deliv i)).error = none := by
        rw [applyEvents_error, hs,
          lastErrAux_of_not_hasErr _ _ (by simpa using h 0 (Nat.succ_pos rem))]
      rw [runLoop_succ_of_error_none deliv i rem s herr, cleanRun]
      exact ih (i + 1) _ (by simpa using herr) fun j hj => by
        have := h (j + 1) (Nat.succ_lt_succ hj)
        simpa [Nat.add_assoc, Nat.add_comm 1 j, Nat.add_left_comm] using this

theorem cleanRun_dispatched (deliv : Nat → List Event) :
    ∀ (rem i : Nat) (s : DState),
    (cleanRun deliv i rem s).dispatched = s.dispatched ++ List.range' i rem := by
  intro rem
  induction rem with
  | zero => intro i s; simp [cleanRun]
  | succ rem ih =>
      intro i s
      rw [cleanRun, ih, List.range'_succ]
      simp [applyEvents_dispatched, List.concat_eq_append]

theorem cleanRun_cancelled (deliv : Nat → List Event) :
    ∀ (rem i : Nat) (s : DState),
    (cleanRun deliv i rem s).cancelled = s.cancelled := by
  intro rem
  induction rem with
  | zero => intro i s; simp [cleanRun]
  | succ rem ih =>
      intro i s
      rw [cleanRun, ih]
      simp [applyEvents_cancelled]

theorem cleanRun_finished (deliv : Nat → List Event) :
    ∀ (rem i : Nat) (s : DState),
    (cleanRun deliv i rem s).finished =
      s.finished + ((List.range' i rem).map fun j => okSum (deliv j)).sum := by
  intro rem
  induction rem with
  | zero => intro i s; simp [cleanRun]
  | succ rem ih =>
      intro i s
      rw [cleanRun, ih, List.range'_succ]
      simp [applyEvents_finished, Nat.add_assoc]

/-! ### The dispatch loop when a failure is delivered -/

/-- If the suspension points strictly before offset `k` are failure-free and
the callbacks run at offset `k` leave the error cell set to `e`, the loop
raises `e` at that check: it has dispatched exactly the batches before `k`,
and it cancelled exactly the dispatched jobs whose futures were not done. -/
theorem runLoop_err (deliv : Nat → List Event) (e : String) :
    ∀ (k rem i : Nat) (s : DState), k < rem → s.error = none →
    (∀ j, j < k → hasErr (deliv (i + j)) = false) →
    lastErrAux none (deliv (i + k)) = some e →
    ∃ S : DState, runLoop deliv i rem s = (S, some e) ∧
      S.dispatched = s.dispatched ++ List.range' i k ∧
      S.cancelled = S.dispatched.filter fun j => ¬ S.done.contains j := by
  intro k
  induction k with
  | zero =>
      intro rem i s hk hs _ he
      obtain ⟨rem', rfl⟩ : ∃ rem', rem = rem' + 1 :=
        ⟨rem - 1, (Nat.succ_pred_eq_of_pos hk).symm⟩
      have herr : (applyEvents s (deliv i)).error = some e := by
        rw [applyEvents_error, hs]; simpa using he
      refine ⟨_, runLoop_succ_of_error_some deliv i rem' s e herr, ?_, rfl⟩
      simp [applyEvents_dispatched]
  | succ k ih =>
      intro rem i s hk hs h he
      obtain ⟨rem', rfl⟩ : ∃ rem', rem = rem' + 1 :=
        ⟨rem - 1, (Nat.succ_pred_eq_of_pos (Nat.lt_of_le_of_lt (Nat.zero_le _) hk)).symm⟩
      have herr : (applyEvents s (deliv i)).error = none := by
        rw [applyEvents_error, hs,
          lastErrAux_of_not_hasErr _ _ (by simpa using h 0 (Nat.succ_pos k))]
      rw [runLoop_succ_of_error_none deliv i rem' s herr]
      obtain ⟨S, hrun, hd, hc⟩ :=
        ih rem' (i + 1)
          { applyEvents s (deliv i) with
            dispatched := (applyEvents s (deliv i)).dispatched.concat i }
          (Nat.lt_of_succ_lt_succ hk) (by simpa using herr)
          (fun j hj => by
            have := h (j + 1) (Nat.succ_lt_succ hj)
            simpa [Nat.add_assoc, Nat.add_comm 1 j, Nat.add_left_comm] using this)
          (by
            have : i + 1 + k = i + (k + 1) := by omega
            rw [this]; exact he)
      refine ⟨S, hrun, ?_, hc⟩
      rw [hd]
      simp [applyEvents_dispatched, List.range'_succ, List.concat_eq_append]

/-! ### Gathering the in-flight jobs -/

/-- A failure-free gather runs every completion callback and raises
nothing. -/
theorem runGather_clean (gEv : List Event) :
    ∀ s : DState, hasErr gEv = false → runGather s gEv = (applyEvents s gEv, none) := by
  induction gEv with
  | nil => intro s _; rfl
  | cons ev rest ih =>
      intro s h
      rw [hasErr, List.any_cons, Bool.or_eq_false_iff] at h
      rw [runGather]
      cases hr : ev.res with
      | ok c =>
          rw [ih _ h.2]
          simp [applyEvents]
      | err m => rw [hr] at h; simp at h

/-- If the jobs observed before the first failing one all succeeded, the
gather raises that job's exception and cancels nothing (the `cancelled` set
is unchanged). -/
theorem runGather_err (p rest : List Event) (jb : Nat) (m : String) :
    ∀ s : DState, hasErr p = false →
    runGather s (p ++ ⟨jb, .err m⟩ :: rest) =
      (applyEvent (applyEvents s p) ⟨jb, .err m⟩, some m) := by
  induction p with
  | nil => intro s _; rfl
  | cons ev tl ih =>
      intro s h
      rw [hasErr, List.any_cons, Bool.or_eq_false_iff] at h
      rw [List.cons_append, runGather]
      cases hr : ev.res with
      | ok c =>
          rw [ih _ h.2]
          simp [applyEvents]
      | err m' => rw [hr] at h; simp at h

/-! ### do_index: success path and fail-fast path -/

/-- **C9.** If the scheduling loop completes without any recorded error and
every gathered job succeeds, `do_index` dispatched every batch in schedule
order, accumulated every reported per-batch count into the schedule
(`finished`), and its result is decided by the completion check with
`ignore_mismatch` exactly when `mode = "resume"`: it returns the total
processed count `total` when `mode = "resume"` or the accumulated counts
equal `total`, and raises the schedule-mismatch assertion otherwise.
In particular `total = 25000` with `batch_size = 10000` gives three batches
and, with all of them succeeding with their full sizes, the returned count
is `25000` (witness below). -/
theorem do_index_success_returns_total (total batch_size : Nat) (mode : String)
    (deliv : Nat → List Event) (gatherEv : List Event)
    (hloop : ∀ j, j < numBatches total batch_size → hasErr (deliv j) = false)
    (hg : hasErr gatherEv = false) :
    (do_index total batch_size mode deliv gatherEv).dispatched =
      List.range (numBatches total batch_size) ∧
    (do_index total batch_size mode deliv gatherEv).finished =
      ((List.range (numBatches total batch_size)).map fun j => okSum (deliv j)).sum
        + okSum gatherEv ∧
    (do_index total batch_size mode deliv gatherEv).outcome =
      (if mode = "resume" ∨
          ((List.range (numBatches total batch_size)).map fun j => okSum (deliv j)).sum
            + okSum gatherEv = total
       then Except.ok total else Except.error "schedule mismatch") := by
  have hrl := runLoop_clean deliv (numBatches total batch_size) 0
    ⟨0, none, [], [], []⟩ rfl (fun j hj => by simpa using hloop j hj)
  have hfin : (cleanRun deliv 0 (numBatches total batch_size) ⟨0, none, [], [], []⟩).finished
      = ((List.range (numBatches total batch_size)).map fun j => okSum (deliv j)).sum := by
    rw [cleanRun_finished, List.range_eq_range']
    simp
  have hdis : (cleanRun deliv 0 (numBatches total batch_size) ⟨0, none, [], [], []⟩).dispatched
      = List.range (numBatches total batch_size) := by
    rw [cleanRun_dispatched, List.range_eq_range']
    rfl
  unfold do_index
  rw [hrl]
  dsimp only
  rw [runGather_clean gatherEv _ hg]
  dsimp only
  simp only [applyEvents_dispatched, applyEvents_finished, hdis, hfin]
  by_cases hm : mode = "resume"
  · simp [schedule_completed, hm]
  · by_cases hsum :
      ((List.range (numBatches total batch_size)).map fun j => okSum (deliv j)).sum
        + okSum gatherEv = total
    · simp [schedule_completed, hm, hsum]
    · simp [schedule_completed, hm, hsum]

/-- Witness for C9: the spec scenario `total = 25000`, `batch_size = 10000`,
three batches of sizes 10000, 10000, 5000 all succeeding: batches 0,1,2 are
dispatched and the returned count is 25000. -/
theorem do_index_success_returns_total_witness :
    (do_index 25000 10000 "index" (fun _ => [])
        [⟨0, .ok 10000⟩, ⟨1, .ok 10000⟩, ⟨2, .ok 5000⟩]).dispatched = [0, 1, 2] ∧
    (do_index 25000 10000 "index" (fun _ => [])
        [⟨0, .ok 10000⟩, ⟨1, .ok 10000⟩, ⟨2, .ok 5000⟩]).outcome = Except.ok 25000 := by
  obtain ⟨h1, _, h3⟩ := do_index_success_returns_total 25000 10000 "index" (fun _ => [])
    [⟨0, .ok 10000⟩, ⟨1, .ok 10000⟩, ⟨2, .ok 5000⟩]
    (fun j _ => rfl) rfl
  refine ⟨?_, ?_⟩
  · rw [h1]; rfl
  · rw [h3]; rfl

/-- The first exception among the completion events, i.e. the first error a
completion callback records. -/
def firstErr (evs : List Event) : Option String :=
  evs.findSome? fun e => match e.res with
    | .err m => some m
    | .ok _ => none

/-- Delivery trace refuting C1 as stated: three batches; at the suspension
point before dispatching batch 2, the callbacks of jobs 0 and 1 both run and
both record errors, first E0 then E1. -/
def delivCE : Nat → List Event :=
  fun i => if i = 2 then [⟨0, .err "E0"⟩, ⟨1, .err "E1"⟩] else []

/-- **C1 (counterexample).** The claim fails on the code in two ways.
(a) `total = 150`, `batch_size = 50`, trace `delivCE`: two errors are
recorded before the next check; the first recorded error is E0 but the error
re-raised to the caller is E1 (each failing callback overwrites the shared
`error` cell). (b) `total = 100`, `batch_size = 50`, no error during the
scheduling loop, then job 0 fails at the gather: job 1 is dispatched and not
yet completed, yet nothing is cancelled — `asyncio.gather` just re-raises. -/
theorem do_index_failfast_counterexample :
    ((do_index 150 50 "index" delivCE []).outcome = Except.error "E1"
      ∧ firstErr (delivCE 2) = some "E0")
    ∧ ((do_index 100 50 "index" (fun _ => []) [⟨0, .err "E0"⟩]).outcome
          = Except.error "E0"
      ∧ (do_index 100 50 "index" (fun _ => []) [⟨0, .err "E0"⟩]).dispatched = [0, 1]
      ∧ (do_index 100 50 "index" (fun _ => []) [⟨0, .err "E0"⟩]).done = [0]
      ∧ (do_index 100 50 "index" (fun _ => []) [⟨0, .err "E0"⟩]).cancelled = []) :=
  ⟨⟨rfl, rfl⟩, rfl, rfl, rfl, rfl⟩

/-- **C1 (amended).** Fail-fast cancellation in the index step.
(a) If a completion callback leaves the error cell set before the check that
precedes the dispatch of batch `i0` (the failure was delivered at suspension
point `i0`, with no failure delivered earlier), then no batch from `i0` on is
dispatched (`dispatched = range i0`), every dispatched job whose future is
not yet done is cancelled, and the error re-raised to the caller is the one
most recently recorded at that check (`lastErrAux`), not necessarily the
first. (b) If no failure is delivered during the scheduling loop and the
first failure is observed while gathering, that error is re-raised but no
job is cancelled. -/
theorem do_index_failfast_amended :
    (∀ (total bs : Nat) (mode : String) (deliv : Nat → List Event)
        (gEv : List Event) (i0 : Nat) (e : String),
      i0 < numBatches total bs →
      (∀ j, j < i0 → hasErr (deliv j) = false) →
      lastErrAux none (deliv i0) = some e →
      (do_index total bs mode deliv gEv).outcome = Except.error e ∧
      (do_index total bs mode deliv gEv).dispatched = List.range i0 ∧
      (do_index total bs mode deliv gEv).cancelled =
        (do_index total bs mode deliv gEv).dispatched.filter
          fun j => ¬ (do_index total bs mode deliv gEv).done.contains j)
    ∧
    (∀ (total bs : Nat) (mode : String) (deliv : Nat → List Event)
        (p rest : List Event) (jb : Nat) (m : String),
      (∀ j, j < numBatches total bs → hasErr (deliv j) = false) →
      hasErr p = false →
      (do_index total bs mode deliv (p ++ ⟨jb, .err m⟩ :: rest)).outcome
          = Except.error m ∧
      (do_index total bs mode deliv (p ++ ⟨jb, .err m⟩ :: rest)).cancelled = []) := by
  constructor
  · intro total bs mode deliv gEv i0 e hi0 hpre he
    obtain ⟨S, hrun, hd, hc⟩ := runLoop_err deliv e i0 (numBatches total bs) 0
      ⟨0, none, [], [], []⟩ hi0 rfl (fun j hj => by simpa using hpre j hj)
      (by simpa using he)
    unfold do_index
    rw [hrun]
    dsimp only
    refine ⟨rfl, ?_, ?_⟩
    · rw [hd]
      simp [List.range_eq_range']
    · exact hc
  · intro total bs mode deliv p rest jb m hloop hp
    have hrl := runLoop_clean deliv (numBatches total bs) 0
      ⟨0, none, [], [], []⟩ rfl (fun j hj => by simpa using hloop j hj)
    unfold do_index
    rw [hrl]
    dsimp only
    rw [runGather_err p rest jb m _ hp]
    dsimp only
    exact ⟨rfl, by simp [applyEvent_cancelled, applyEvents_cancelled, cleanRun_cancelled]⟩

/-- Witness for the amended C1 at concrete inputs.
(a) two batches, job 0 fails with "boom" before the check preceding batch 1:
only batch 0 was dispatched, its future is done, nothing is left to cancel,
and "boom" is raised. (b) two batches dispatched cleanly, job 0 fails at the
gather with "late": "late" is raised and nothing is cancelled. -/
theorem do_index_failfast_amended_witness :
    ((do_index 100 50 "index" (fun i => if i = 1 then [⟨0, .err "boom"⟩] else []) []).outcome
        = Except.error "boom"
      ∧ (do_index 100 50 "index" (fun i => if i = 1 then [⟨0, .err "boom"⟩] else []) []).dispatched
        = List.range 1)
    ∧ ((do_index 100 50 "index" (fun _ => []) [⟨0, .err "late"⟩]).outcome
        = Except.error "late"
      ∧ (do_index 100 50 "index" (fun _ => []) [⟨0, .err "late"⟩]).cancelled = []) := by
  have ha := do_index_failfast_amended.1 100 50 "index"
    (fun i => if i = 1 then [⟨0, .err "boom"⟩] else []) [] 1 "boom"
    (by decide)
    (fun j hj => by
      have : j = 0 := Nat.lt_one_iff.mp hj
      subst this; rfl)
    rfl
  have hb := do_index_failfast_amended.2 100 50 "index" (fun _ => [])
    [] [] 0 "late" (fun j _ => rfl) rfl
  exact ⟨⟨ha.1, ha.2.1⟩, hb.1, hb.2⟩

/-! ## Indexer.index (indexer.py, lines 179-266)

The entry point normalizes a string `steps` argument to a one-element list,
then asserts, in source order: `batch_size` in `[50, 10000]`, `steps` is a
list/tuple, `mode` is a string — all before any job-status registrar (JSR)
object is created.  Each requested step is wrapped in
started/succeeded/failed registrar writes.  The remote outcomes of the
`index` and `post` steps are oracle parameters (`doRes`, `postRes`); the
`pre` step is the `pre_index` embedding above. -/

/-- The Python value passed as `steps`: a string, a list of step names, or
something of another type (rejected by `assert isinstance(steps, (list,
tuple))`). -/
inductive PySteps
  | str (s : String)
  | list (l : List String)
  | other
  deriving DecidableEq, Repr

/-- The Python value passed as `mode`: a string, or something of another
type (rejected by `assert isinstance(mode, str)`). -/
inductive PyMode
  | str (s : String)
  | other
  deriving DecidableEq, Repr

/-- `if isinstance(steps, str): steps = [steps]`, then the list/tuple
assertion: `none` means the assertion fails. -/
def normSteps : PySteps → Option (List String)
  | .str s => some [s]
  | .list l => some l
  | .other => none

/-- One write of the step-status registrar against the build record. -/
inductive JSRWrite
  | preStarted
  | preSucceed
  | preFailed (msg : String)
  | mainStarted
  | mainSucceed (cnt : Nat)
  | mainFailed (msg : String)
  | postStarted
  | postSucceed
  | postFailed (msg : String)
  deriving DecidableEq, Repr

/-- The `post` step of `Indexer.index`: registrar writes around the oracle
outcome `postRes`; on success the accumulated count is returned. -/
def indexerPost (w : List JSRWrite) (sl : List String) (cnt : Nat)
    (postRes : Except String Unit) : List JSRWrite × Except String Nat :=
  if sl.contains "post" then
    match postRes with
    | .error e => (w ++ [.postStarted, .postFailed e], .error e)
    | .ok _ => (w ++ [.postStarted, .postSucceed], .ok cnt)
  else (w, .ok cnt)

/-- The `index` step of `Indexer.index`: registrar writes around the oracle
outcome `doRes` of `do_index`, then the `post` step. -/
def indexerMain (w : List JSRWrite) (sl : List String)
    (doRes : Except String Nat) (postRes : Except String Unit) :
    List JSRWrite × Except String Nat :=
  if sl.contains "index" then
    match doRes with
    | .error e => (w ++ [.mainStarted, .mainFailed e], .error e)
    | .ok c => indexerPost (w ++ [.mainStarted, .mainSucceed c]) sl c postRes
  else indexerPost w sl 0 postRes

/-- Embedding of `Indexer.index(job_manager, steps, batch_size, ids, mode)`:
argument assertions in source order (before any registrar write), then the
`pre`, `index`, `post` steps, each wrapped in registrar writes, stopping at
the first failure.  Returns the registrar writes in order and the result. -/
def indexer_index (steps : PySteps) (batch_size : Nat) (mode : PyMode)
    (destExists : Bool) (doRes : Except String Nat) (postRes : Except String Unit) :
    List JSRWrite × Except String Nat :=
  if 50 ≤ batch_size ∧ batch_size ≤ 10000 then
    match normSteps steps with
    | none => ([], .error "bad argument steps")
    | some sl =>
      match mode with
      | .other => ([], .error "bad argument mode")
      | .str m =>
        if sl.contains "pre" then
          match pre_index destExists m with
          | .error e => ([.preStarted, .preFailed e], .error e)
          | .ok _ => indexerMain [.preStarted, .preSucceed] sl doRes postRes
        else indexerMain [] sl doRes postRes
  else ([], .error "batch_size out-of-range")

/-- **C4 (counterexample).** A bad mode *value* does not raise before the
registrar writes: calling `Indexer.index` with `steps=["pre"]` and
`mode="bogus"` passes the argument assertions (the mode is a string),
records the pre step as started, and only then raises `Invalid mode`
from `pre_index` — which is recorded as a failed-step write. -/
theorem indexer_index_bad_mode_counterexample :
    (indexer_index (.list ["pre"]) 10000 (.str "bogus") false (.ok 0) (.ok ())).1
        = [.preStarted, .preFailed "Invalid mode: bogus"]
    ∧ (indexer_index (.list ["pre"]) 10000 (.str "bogus") false (.ok 0) (.ok ())).2
        = .error "Invalid mode: bogus"
    ∧ (indexer_index (.list ["pre"]) 10000 (.str "bogus") false (.ok 0) (.ok ())).1
        ≠ [] := by
  refine ⟨rfl, rfl, by decide⟩

/-- **C4 (amended).** Configuration errors detected by the argument
assertions — out-of-range `batch_size`, non-list/tuple `steps`, non-string
`mode` — raise synchronously with no registrar write; an invalid mode
*value* (a string other than index/resume/merge/purge) is only detected by
the pre step, which raises after recording `started` and is recorded as
`failed`. -/
theorem indexer_index_config_errors_amended :
    (∀ (steps : PySteps) (bs : Nat) (mode : PyMode) (dest : Bool)
        (doRes : Except String Nat) (postRes : Except String Unit),
      ¬ (50 ≤ bs ∧ bs ≤ 10000) →
      indexer_index steps bs mode dest doRes postRes
        = ([], .error "batch_size out-of-range"))
    ∧ (∀ (bs : Nat) (mode : PyMode) (dest : Bool)
        (doRes : Except String Nat) (postRes : Except String Unit),
      50 ≤ bs → bs ≤ 10000 →
      indexer_index .other bs mode dest doRes postRes
        = ([], .error "bad argument steps"))
    ∧ (∀ (steps : PySteps) (sl : List String) (bs : Nat) (dest : Bool)
        (doRes : Except String Nat) (postRes : Except String Unit),
      50 ≤ bs → bs ≤ 10000 → normSteps steps = some sl →
      indexer_index steps bs .other dest doRes postRes
        = ([], .error "bad argument mode"))
    ∧ (∀ (steps : PySteps) (sl : List String) (bs : Nat) (m : String) (dest : Bool)
        (doRes : Except String Nat) (postRes : Except String Unit),
      50 ≤ bs → bs ≤ 10000 → normSteps steps = some sl → sl.contains "pre" = true →
      m ≠ "index" → m ≠ "resume" → m ≠ "merge" → m ≠ "purge" →
      indexer_index steps bs (.str m) dest doRes postRes
        = ([.preStarted, .preFailed ("Invalid mode: " ++ m)],
           .error ("Invalid mode: " ++ m))) := by
  refine ⟨?_, ?_, ?_, ?_⟩
  · intro steps bs mode dest doRes postRes h
    simp [indexer_index, h]
  · intro bs mode dest doRes postRes h1 h2
    simp [indexer_index, h1, h2, normSteps]
  · intro steps sl bs dest doRes postRes h1 h2 hsl
    simp [indexer_index, h1, h2, hsl]
  · intro steps sl bs m dest doRes postRes h1 h2 hsl hpre hm1 hm2 hm3 hm4
    have hpi : pre_index dest m = .error ("Invalid mode: " ++ m) := by
      simp [pre_index, hm1, hm2, hm3, hm4]
    have hpre' : "pre" ∈ sl := by simpa using hpre
    simp [indexer_index, h1, h2, hsl, hpre', hpi]

/-- Witness for the amended C4 at concrete inputs: `batch_size = 10` hits the
range assertion with no write; `steps` of a bad type and `mode` of a bad
type raise with no write; `steps=["pre"]` with `mode="bogus"` yields exactly
the started/failed pre-step writes. -/
theorem indexer_index_config_errors_amended_witness :
    indexer_index (.list ["pre"]) 10 (.str "index") false (.ok 0) (.ok ())
        = ([], .error "batch_size out-of-range")
    ∧ indexer_index .other 10000 (.str "index") false (.ok 0) (.ok ())
        = ([], .error "bad argument steps")
    ∧ indexer_index (.list ["pre"]) 10000 .other false (.ok 0) (.ok ())
        = ([], .error "bad argument mode")
    ∧ indexer_index (.list ["pre"]) 10000 (.str "bogus2") false (.ok 0) (.ok ())
        = ([.preStarted, .preFailed "Invalid mode: bogus2"],
           .error "Invalid mode: bogus2") :=
  ⟨indexer_index_config_errors_amended.1 _ 10 _ _ _ _ (by decide),
   indexer_index_config_errors_amended.2.1 10000 _ _ _ _ (by decide) (by decide),
   indexer_index_config_errors_amended.2.2.1 _ ["pre"] 10000 _ _ _
     (by decide) (by decide) rfl,
   indexer_index_config_errors_amended.2.2.2 _ ["pre"] 10000 "bogus2" _ _ _
     (by decide) (by decide) rfl (by decide)
     (by decide) (by decide) (by decide) (by decide)⟩

/-! ## ColdHotIndexer.index (indexer.py, lines 414-445)

The composite awaits `cold.index(job_manager, ("pre", "index"), batch_size,
ids, mode)`, then awaits `hot.index(job_manager, "index", batch_size, ids,
"merge")`, overwriting `cnt` each time.  For the `post` step it evaluates
`self.hot.post_index()` — a call to a coroutine function with no
`yield from`, so the coroutine object is created and discarded and its body
never executes.  The trace below records these three observable acts in
program order; the sub-indexers' return values (the `{index_name: count}`
mappings produced by `Indexer.index`) are oracle parameters. -/

/-- Observable act of one `ColdHotIndexer.index` run. -/
inductive CHEvent
  | coldIndexCall (steps : List String) (mode : String)
  | hotIndexCall (steps : List String) (mode : String)
  | hotPostCoroutineCreated
  deriving DecidableEq, Repr

/-- The running value of `cnt` in `ColdHotIndexer.index`: initialized to the
integer 0, later overwritten with an awaited sub-indexer's return value,
which is a per-index mapping. -/
inductive CHVal
  | num (n : Nat)
  | map (m : List (String × Nat))
  deriving DecidableEq, Repr

/-- Embedding of `ColdHotIndexer.index(job_manager, steps, batch_size, ids,
mode)`: the trace of awaited sub-indexer calls (and the unawaited
`hot.post_index()` coroutine creation), with the returned
`{self.index_name: cnt}` pair. -/
def coldhot_index (indexName : String) (steps : List String) (mode : String)
    (_coldRet hotRet : List (String × Nat)) : List CHEvent × (String × CHVal) :=
  let part1 : List CHEvent × CHVal :=
    if steps.contains "index" then
      ([.coldIndexCall ["pre", "index"] mode, .hotIndexCall ["index"] "merge"],
       .map hotRet)
    else ([], .num 0)
  let part2 : List CHEvent :=
    if steps.contains "post" then [.hotPostCoroutineCreated] else []
  (part1.1 ++ part2, (indexName, part1.2))

/-- **C5.** When the requested steps include "index", the composite first
awaits the cold Indexer's `pre`+`index` steps with the caller's mode, and
only after they complete awaits the hot Indexer's `index` step alone, forced
to `mode="merge"`: the trace begins with exactly these two calls, in that
order. -/
theorem coldhot_index_phase_order (indexName : String) (steps : List String)
    (mode : String) (coldRet hotRet : List (String × Nat))
    (h : steps.contains "index" = true) :
    (coldhot_index indexName steps mode coldRet hotRet).1.take 2
      = [.coldIndexCall ["pre", "index"] mode, .hotIndexCall ["index"] "merge"] := by
  have h' : "index" ∈ steps := by simpa using h
  simp [coldhot_index, h']

/-- Witness for C5: `steps = ["index"]`, `mode = "index"`, distinct cold and
hot return mappings. -/
theorem coldhot_index_phase_order_witness :
    (coldhot_index "idx" ["index"] "index" [("idx", 3)] [("idx", 7)]).1.take 2
      = [.coldIndexCall ["pre", "index"] "index", .hotIndexCall ["index"] "merge"] :=
  coldhot_index_phase_order "idx" ["index"] "index" [("idx", 3)] [("idx", 7)] rfl

/-- **C6 (code evaluated at the failing input).** With `steps = ["post"]`,
the run's trace is exactly the creation of the `hot.post_index()` coroutine:
the cold Indexer's post-step is never invoked, but neither does the hot
post-step body run — the coroutine is never awaited (missing `yield from`),
so no awaited call of any sub-indexer appears in the trace. -/
theorem coldhot_index_post_only_creates_coroutine (indexName : String)
    (mode : String) (coldRet hotRet : List (String × Nat)) :
    (coldhot_index indexName ["post"] mode coldRet hotRet).1
        = [.hotPostCoroutineCreated]
    ∧ (∀ sl m, CHEvent.coldIndexCall sl m ∉
        (coldhot_index indexName ["post"] mode coldRet hotRet).1)
    ∧ (∀ sl m, CHEvent.hotIndexCall sl m ∉
        (coldhot_index indexName ["post"] mode coldRet hotRet).1) := by
  refine ⟨rfl, ?_, ?_⟩ <;> intro sl m <;> simp [coldhot_index]

/-- Witness for C6's theorem at concrete inputs. -/
theorem coldhot_index_post_only_creates_coroutine_witness :
    (coldhot_index "idx" ["post"] "index" [] []).1 = [.hotPostCoroutineCreated]
    ∧ CHEvent.coldIndexCall ["post"] "index"
        ∉ (coldhot_index "idx" ["post"] "index" [] []).1 :=
  ⟨(coldhot_index_post_only_creates_coroutine "idx" "index" [] []).1,
   (coldhot_index_post_only_creates_coroutine "idx" "index" [] []).2.1 ["post"] "index"⟩

/-- **C10.** For a run whose steps include "index", the value returned under
the composite index name is exactly the hot Indexer's return value — itself
a per-index mapping — regardless of the cold Indexer's return value, which
is overwritten. -/
theorem coldhot_index_returns_hot_value (indexName : String)
    (steps : List String) (mode : String) (coldRet hotRet : List (String × Nat))
    (h : steps.contains "index" = true) :
    (coldhot_index indexName steps mode coldRet hotRet).2
      = (indexName, .map hotRet) := by
  have h' : "index" ∈ steps := by simpa using h
  simp [coldhot_index, h']

/-- Witness for C10: distinct cold and hot mappings; the cold count 3 does
not contribute to the reported result. -/
theorem coldhot_index_returns_hot_value_witness :
    (coldhot_index "idx" ["index", "post"] "index" [("idx", 3)] [("idx", 7)]).2
      = ("idx", .map [("idx", 7)]) :=
  coldhot_index_returns_hot_value "idx" ["index", "post"] "index"
    [("idx", 3)] [("idx", 7)] rfl

/-! ## IndexManager._select_indexer (indexer.py, lines 547-570)

The routing table `indexer_select` maps an optional dot-path (the `None` key
is the configured default) to an indexer classpath.  The build record enters
as the list of key paths its traversal yields.  Modelled from the spec:
`biothings.utils.common.traverse` (not among the provided sources) yields
every key path present in the build record; the embedding takes that path
list directly.  The source walks the paths, remembering the first one that
is a key of the table and raising on a second. -/

/-- The indexer class `_select_indexer` returns: the hard-coded
`DEFAULT_INDEXER` class attribute (when no rules are configured or no target
is given), or the class loaded from a configured classpath. -/
inductive Selected
  | defaultIndexer
  | classpath (s : String)
  deriving DecidableEq, Repr

/-- Dict lookup in the routing table (`None` key = default entry). -/
def lookupRule (rules : List (Option String × String)) (k : Option String) :
    Option String :=
  (rules.find? fun r => r.1 = k).map fun r => r.2

/-- The path-walking loop: remember the first path that is a key of the
table in `acc`; a second match raises `Multiple indexers matched.`. -/
def matchPath (rules : List (Option String × String)) :
    List String → Option String → Except String (Option String)
  | [], acc => .ok acc
  | p :: rest, acc =>
      if (lookupRule rules (some p)).isSome then
        if acc.isSome then .error "Multiple indexers matched."
        else matchPath rules rest (some p)
      else matchPath rules rest acc

/-- Embedding of `IndexManager._select_indexer(target_name)`: empty rules or
no target name yield the `DEFAULT_INDEXER` class; otherwise walk the build
record's paths and load the class registered for the matched path (the
`None` entry when no path matched; a missing `None` entry is a `KeyError`). -/
def select_indexer (rules : List (Option String × String)) (targetGiven : Bool)
    (docPaths : List String) : Except String Selected :=
  if rules.isEmpty ∨ targetGiven = false then .ok .defaultIndexer
  else
    match matchPath rules docPaths none with
    | .error e => .error e
    | .ok acc =>
        match lookupRule rules acc with
        | some c => .ok (.classpath c)
        | none => .error "KeyError"

theorem matchPath_no_match (rules : List (Option String × String)) :
    ∀ (l : List String) (acc : Option String),
    (∀ p ∈ l, (lookupRule rules (some p)).isSome = false) →
    matchPath rules l acc = .ok acc := by
  intro l
  induction l with
  | nil => intro acc _; rfl
  | cons p rest ih =>
      intro acc h
      rw [matchPath, h p (List.mem_cons_self _ _)]
      simp only [Bool.false_eq_true, if_false]
      exact ih acc fun q hq => h q (List.mem_cons_of_mem p hq)

theorem matchPath_append_no_match (rules : List (Option String × String)) :
    ∀ (l1 rest : List String) (acc : Option String),
    (∀ p ∈ l1, (lookupRule rules (some p)).isSome = false) →
    matchPath rules (l1 ++ rest) acc = matchPath rules rest acc := by
  intro l1
  induction l1 with
  | nil => intro rest acc _; rfl
  | cons x tl ih =>
      intro rest acc h
      rw [List.cons_append, matchPath, h x (List.mem_cons_self _ _)]
      simp only [Bool.false_eq_true, if_false]
      exact ih rest acc fun q hq => h q (List.mem_cons_of_mem x hq)

theorem matchPath_second_match (rules : List (Option String × String)) :
    ∀ (l1 : List String) (p : String) (l2 : List String) (q : String),
    (∀ x ∈ l1, (lookupRule rules (some x)).isSome = false) →
    (lookupRule rules (some p)).isSome = true →
    matchPath rules (l1 ++ p :: l2) (some q) = .error "Multiple indexers matched." := by
  intro l1
  induction l1 with
  | nil =>
      intro p l2 q _ hp
      rw [List.nil_append, matchPath, hp]
      simp
  | cons x tl ih =>
      intro p l2 q h hp
      rw [List.cons_append, matchPath, h x (List.mem_cons_self _ _)]
      simp only [Bool.false_eq_true, if_false]
      exact ih p l2 q (fun y hy => h y (List.mem_cons_of_mem x hy)) hp

/-- **C7.** Routing resolution, for a non-empty rule table with a configured
default (`None`) entry and a named build record:
(a) if exactly one key path of the build record is a key of the table —
`docPaths = l1 ++ p :: l2` with `p` matching and nothing in `l1`, `l2`
matching — the indexer registered for that path is selected;
(b) if no key path matches, the configured default indexer is selected;
(c) if a second key path matches — `docPaths = l1 ++ p :: l2 ++ q :: l3`
with `p` and `q` matching and nothing in `l1`, `l2` matching — a fatal
`Multiple indexers matched.` error is raised. -/
theorem select_indexer_routing (rules : List (Option String × String))
    (hne : rules.isEmpty = false) (d : String)
    (hd : lookupRule rules none = some d) :
    (∀ (l1 : List String) (p : String) (l2 : List String) (c : String),
      (∀ x ∈ l1, (lookupRule rules (some x)).isSome = false) →
      (∀ x ∈ l2, (lookupRule rules (some x)).isSome = false) →
      lookupRule rules (some p) = some c →
      select_indexer rules true (l1 ++ p :: l2) = .ok (.classpath c))
    ∧ (∀ docPaths : List String,
      (∀ x ∈ docPaths, (lookupRule rules (some x)).isSome = false) →
      select_indexer rules true docPaths = .ok (.classpath d))
    ∧ (∀ (l1 : List String) (p : String) (l2 : List String) (q : String)
        (l3 : List String),
      (∀ x ∈ l1, (lookupRule rules (some x)).isSome = false) →
      (∀ x ∈ l2, (lookupRule rules (some x)).isSome = false) →
      (lookupRule rules (some p)).isSome = true →
      (lookupRule rules (some q)).isSome = true →
      select_indexer rules true (l1 ++ p :: l2 ++ q :: l3)
        = .error "Multiple indexers matched.") := by
  refine ⟨?_, ?_, ?_⟩
  · intro l1 p l2 c h1 h2 hp
    rw [select_indexer, if_neg (by simp [hne])]
    have hwalk : matchPath rules (l1 ++ p :: l2) none = .ok (some p) := by
      rw [matchPath_append_no_match rules l1 _ none h1, matchPath,
        hp]
      simp only [Option.isSome_some, if_pos]
      exact matchPath_no_match rules l2 (some p) h2
    rw [hwalk]
    simp [hp]
  · intro docPaths h
    rw [select_indexer, if_neg (by simp [hne]),
      matchPath_no_match rules docPaths none h]
    simp [hd]
  · intro l1 p l2 q l3 h1 h2 hp hq
    rw [select_indexer, if_neg (by simp [hne])]
    have hwalk : matchPath rules (l1 ++ p :: l2 ++ q :: l3) none
        = .error "Multiple indexers matched." := by
      rw [List.append_assoc, matchPath_append_no_match rules l1 _ none h1,
        List.cons_append, matchPath, hp]
      simp only [Option.isSome_some, if_pos]
      exact matchPath_second_match rules l2 q l3 p h2 hq
    rw [hwalk]

/-- Witness for C7: the spec scenario. Rules
`{None: DefaultIndexer, "build_config.cold_collection": ColdHotVariantIndexer}`;
a build record containing the path `build_config.cold_collection` selects
the cold/hot variant, one lacking it selects the default, and a table where
two of the record's paths match raises the ambiguity error. -/
theorem select_indexer_routing_witness :
    select_indexer
        [(none, "DefaultIndexer"),
         (some "build_config.cold_collection", "ColdHotVariantIndexer")]
        true ["_id", "build_config", "build_config.cold_collection", "mapping"]
      = .ok (.classpath "ColdHotVariantIndexer")
    ∧ select_indexer
        [(none, "DefaultIndexer"),
         (some "build_config.cold_collection", "ColdHotVariantIndexer")]
        true ["_id", "build_config", "mapping"]
      = .ok (.classpath "DefaultIndexer")
    ∧ select_indexer
        [(none, "DefaultIndexer"), (some "a", "X"), (some "b", "Y")]
        true ["a", "b"]
      = .error "Multiple indexers matched." := by
  have h := select_indexer_routing
    [(none, "DefaultIndexer"),
     (some "build_config.cold_collection", "ColdHotVariantIndexer")]
    rfl "DefaultIndexer" rfl
  have h2 := select_indexer_routing
    [(none, "DefaultIndexer"), (some "a", "X"), (some "b", "Y")]
    rfl "DefaultIndexer" rfl
  refine ⟨?_, ?_, ?_⟩
  · exact h.1 ["_id", "build_config"] "build_config.cold_collection" ["mapping"]
      "ColdHotVariantIndexer" (by decide) (by decide) rfl
  · exact h.2.1 ["_id", "build_config", "mapping"] (by decide)
  · exact h2.2.2 [] "a" [] "b" [] (by decide) (by decide) rfl rfl

/-! ## RepositoryConfig.format (snapshooter.py, lines 129-152)

`format` serializes the config document, feeds it through `template_out`
against the build record, and raises `Failed to template.` if the rendered
text still contains a percent character.  The config document is embedded as
a flat list of string-keyed leaves whose values are template strings: lists
of segments (literal text, a calendar placeholder such as `$(Y)`, a dot-path
placeholder such as `%(_meta.build_version)s`). -/

/-- One segment of a templated string leaf. -/
inductive Seg
  | lit (s : String)
  | cal
  | path (p : String)
  deriving DecidableEq, Repr

/-- Dot-path lookup in the (flattened) build record. -/
def lookupDoc (doc : List (String × String)) (p : String) : Option String :=
  (doc.find? fun kv => kv.1 = p).map fun kv => kv.2

/-- Modelled from the spec: `biothings.utils.hub.template_out` (not among
the provided sources) resolves a calendar-field placeholder to the current
calendar value and a dot-path placeholder to the build record's value at
that path, leaving the placeholder text — which contains a percent sign —
in place when the path is missing; literal text passes through unchanged. -/
def renderSeg (doc : List (String × String)) (year : String) : Seg → String
  | .lit s => s
  | .cal => year
  | .path p =>
      match lookupDoc doc p with
      | some v => v
      | none => "%(" ++ p ++ ")s"

/-- Render a template string leaf. -/
def renderTmpl (doc : List (String × String)) (year : String) : List Seg → String
  | [] => ""
  | s :: rest => renderSeg doc year s ++ renderTmpl doc year rest

/-- `"%" in string` of the source, over the underlying characters. -/
def containsPercent (s : String) : Bool :=
  s.toList.contains (Char.ofNat 37)

/-- Embedding of `RepositoryConfig.format(doc)`: render every leaf, then
raise `Failed to template.` if any key or rendered value still contains a
percent character; otherwise return the rendered document. -/
def format (cfg : List (String × List Seg)) (doc : List (String × String))
    (year : String) : Except String (List (String × String)) :=
  if (cfg.map fun kv => (kv.1, renderTmpl doc year kv.2)).any
      (fun kv => containsPercent kv.1 || containsPercent kv.2) then
    .error "Failed to template."
  else .ok (cfg.map fun kv => (kv.1, renderTmpl doc year kv.2))

/-- A template string with no placeholder left: every segment is literal. -/
def resolvedTmpl (t : List Seg) : Bool :=
  t.all fun s => match s with
    | .lit _ => true
    | _ => false

/-- A config document whose placeholders are all already resolved. -/
def resolvedCfg (cfg : List (String × List Seg)) : Bool :=
  cfg.all fun kv => resolvedTmpl kv.2

/-- The text of a fully-literal template string. -/
def litJoin : List Seg → String
  | [] => ""
  | .lit s :: rest => s ++ litJoin rest
  | _ :: rest => litJoin rest

/-- The document a config denotes once its (fully literal) leaves are read
as plain strings. -/
def asStrings (cfg : List (String × List Seg)) : List (String × String) :=
  cfg.map fun kv => (kv.1, litJoin kv.2)

/-- No key and no literal leaf text contains a percent character. -/
def noPercentCfg (cfg : List (String × List Seg)) : Bool :=
  cfg.all fun kv => !containsPercent kv.1 && !containsPercent (litJoin kv.2)

theorem containsPercent_append (a b : String) :
    containsPercent (a ++ b) = (containsPercent a || containsPercent b) := by
  simp [containsPercent]

theorem renderTmpl_of_resolved (doc : List (String × String)) (year : String) :
    ∀ t : List Seg, resolvedTmpl t = true → renderTmpl doc year t = litJoin t := by
  intro t
  induction t with
  | nil => intro _; rfl
  | cons s rest ih =>
      intro h
      rw [resolvedTmpl, List.all_cons, Bool.and_eq_true] at h
      cases s with
      | lit x => rw [renderTmpl, litJoin, ih h.2]; rfl
      | cal => simp at h
      | path p => simp at h

theorem renderTmpl_missing_path_has_percent (doc : List (String × String))
    (year : String) (p : String) (hmiss : lookupDoc doc p = none) :
    ∀ (t1 t2 : List Seg),
    containsPercent (renderTmpl doc year (t1 ++ Seg.path p :: t2)) = true := by
  intro t1
  induction t1 with
  | nil =>
      intro t2
      have hpc : containsPercent "%(" = true := by decide
      rw [List.nil_append, renderTmpl, renderSeg, hmiss]
      simp [containsPercent_append, hpc]
  | cons s tl ih =>
      intro t2
      rw [List.cons_append, renderTmpl, containsPercent_append, ih t2]
      simp

/-- **C8 (counterexample).** A config whose placeholders are all resolved
but whose text contains a literal percent character — here the single leaf
`base_path = "a%b"` — is not mapped to an identical document: `format`
raises `Failed to template.` (the source detects unresolved placeholders by
searching the serialized text for any percent character). -/
theorem format_idempotent_counterexample :
    resolvedCfg [("base_path", [Seg.lit "a%b"])] = true
    ∧ format [("base_path", [Seg.lit "a%b"])] [] "2026"
        = .error "Failed to template." :=
  ⟨rfl, rfl⟩

/-- **C8 (amended).** Templating is a no-op on resolved, percent-free
configs and raises on leftover placeholders: (a) for every config whose
placeholders are all resolved and whose keys and leaf texts contain no
percent character, `format` returns the document unchanged (independently of
the build record and the calendar value); (b) if any leaf still holds a
dot-path placeholder that the build record cannot resolve, `format` raises
the fatal `Failed to template.` error. -/
theorem format_idempotent_amended :
    (∀ (cfg : List (String × List Seg)) (doc : List (String × String)) (year : String),
      resolvedCfg cfg = true → noPercentCfg cfg = true →
      format cfg doc year = .ok (asStrings cfg))
    ∧ (∀ (c1 : List (String × List Seg)) (k : String) (t1 t2 : List Seg)
        (p : String) (c2 : List (String × List Seg))
        (doc : List (String × String)) (year : String),
      lookupDoc doc p = none →
      format (c1 ++ (k, t1 ++ Seg.path p :: t2) :: c2) doc year
        = .error "Failed to template.") := by
  constructor
  · intro cfg doc year hres hnop
    rw [resolvedCfg] at hres
    rw [noPercentCfg] at hnop
    have hmap : cfg.map (fun kv => (kv.1, renderTmpl doc year kv.2)) = asStrings cfg := by
      rw [asStrings]
      apply List.map_congr_left
      intro kv hkv
      rw [renderTmpl_of_resolved doc year kv.2 (by
        have := List.all_eq_true.mp hres kv hkv
        simpa using this)]
    have hany : ((asStrings cfg).any
        fun kv => containsPercent kv.1 || containsPercent kv.2) = false := by
      apply List.any_eq_false.mpr
      intro kv hkv
      obtain ⟨a, hmem, rfl⟩ := List.mem_map.mp hkv
      have := List.all_eq_true.mp hnop a hmem
      simp only [Bool.and_eq_true, Bool.not_eq_true'] at this
      simp [this.1, this.2]
    rw [format, hmap, hany]
    simp
  · intro c1 k t1 t2 p c2 doc year hmiss
    have hany : (((c1 ++ (k, t1 ++ Seg.path p :: t2) :: c2).map
        fun kv => (kv.1, renderTmpl doc year kv.2)).any
        fun kv => containsPercent kv.1 || containsPercent kv.2) = true := by
      apply List.any_eq_true.mpr
      refine ⟨(k, renderTmpl doc year (t1 ++ Seg.path p :: t2)), ?_, ?_⟩
      · apply List.mem_map.mpr
        exact ⟨(k, t1 ++ Seg.path p :: t2), by simp, rfl⟩
      · rw [renderTmpl_missing_path_has_percent doc year p hmiss t1 t2]
        simp
    rw [format, hany]
    simp

/-- Witness for the amended C8, on the spec scenario: the already-resolved
config `base_path = "ns/v7"` re-templates to itself, and the templated
config `base_path = "ns/" + placeholder(_meta.build_version)` raises against
a build record missing that key (while resolving to `ns/v7` against one that
has it). -/
theorem format_idempotent_amended_witness :
    format [("base_path", [Seg.lit "ns/v7"])] [("x", "y")] "2026"
        = .ok [("base_path", "ns/v7")]
    ∧ format [("base_path", [Seg.lit "ns/", Seg.path "_meta.build_version"])]
        [("other", "z")] "2026" = .error "Failed to template."
    ∧ format [("base_path", [Seg.lit "ns/", Seg.path "_meta.build_version"])]
        [("_meta.build_version", "v7")] "2026" = .ok [("base_path", "ns/v7")] := by
  refine ⟨?_, ?_, ?_⟩
  · have h := format_idempotent_amended.1 [("base_path", [Seg.lit "ns/v7"])]
      [("x", "y")] "2026" (by decide) (by decide)
    rw [h]
    rfl
  · exact format_idempotent_amended.2 [] "base_path" [Seg.lit "ns/"] []
      "_meta.build_version" [] [("other", "z")] "2026" rfl
  · rfl

/-! ## SnapshotEnv._snapshot (snapshooter.py, lines 248-282) and
Snapshot.state (snapshot_task.py, lines 37-51)

`_snapshot` deletes an existing snapshot of the requested name, creates a
new one, then polls `snapshot.state()` in a loop: `FAILED` raises,
`IN_PROGRESS` sleeps `monitor_delay` seconds and re-queries, `SUCCESS`
returns, anything else (`PARTIAL`/`MISSING`/`N/A`/unknown) raises.  The
remote side enters as the oracle list of successive raw query responses;
`Snapshot.state()` maps each response to a state string. -/

/-- One raw response to `GET /_snapshot/<repo>/<name>`: whether the
repository exists, and the returned snapshot entries' states. -/
structure QueryResp where
  repoExists : Bool
  snaps : List String
  deriving DecidableEq, Repr

/-- Embedding of `Snapshot.state()`: `N/A` when the repository is missing,
`MISSING` when it has no snapshot of this name, else the first returned
snapshot's state. -/
def snapshotState (q : QueryResp) : String :=
  if q.repoExists then
    match q.snaps with
    | [] => "MISSING"
    | s :: _ => s
  else "N/A"

/-- Outcome of the poll loop: return after a number of sleeps, raise a state,
or still polling when the oracle trace runs out (the loop itself has no
timeout). -/
inductive PollResult
  | success (sleeps : Nat)
  | raised (state : String) (sleeps : Nat)
  | pending (sleeps : Nat)
  deriving DecidableEq, Repr

/-- The `while True` poll loop of `_snapshot`, with `k` sleeps so far. -/
def pollLoop : List String → Nat → PollResult
  | [], k => .pending k
  | s :: rest, k =>
      if s = "FAILED" then .raised s k
      else if s = "IN_PROGRESS" then pollLoop rest (k + 1)
      else if s = "SUCCESS" then .success k
      else .raised s k

/-- Snapshot-lifecycle action issued against the search engine. -/
inductive SnapAction
  | deleteSnapshot
  | createSnapshot
  deriving DecidableEq, Repr

/-- Embedding of `SnapshotEnv._snapshot(cfg, index, snapshot)`: delete the
snapshot first when one of the requested name exists (recording
`replaced=True`), create the new snapshot, then poll.  Returns the actions
in order, the `_replace` flag, and the poll outcome. -/
def snapshot_step (alreadyExists : Bool) (queries : List QueryResp) :
    (List SnapAction × Bool) × PollResult :=
  ((if alreadyExists then [.deleteSnapshot, .createSnapshot] else [.createSnapshot],
    alreadyExists),
   pollLoop (queries.map snapshotState) 0)

/-- The six states the spec's snapshot lifecycle vocabulary contains. -/
def knownSnapshotStates : List String :=
  ["MISSING", "N/A", "IN_PROGRESS", "SUCCESS", "FAILED", "PARTIAL"]

/-- **C3.** The snapshot step state machine:
(a) when a snapshot of the requested name already exists it is deleted
before the new one is created — the action trace is exactly
delete-then-create (never an append to the existing snapshot), and exactly
create when none exists;
(b) on `IN_PROGRESS` the loop sleeps once and re-queries;
(c) the loop returns only on `SUCCESS`: a run that returns saw exactly a
(possibly empty) run of `IN_PROGRESS` states followed by `SUCCESS`, with one
sleep per `IN_PROGRESS`;
(d) the loop raises, without sleeping further, on `FAILED` and on any state
outside the `{MISSING, N/A, IN_PROGRESS, SUCCESS, FAILED, PARTIAL}`
vocabulary. -/
theorem snapshot_state_machine :
    (∀ queries : List QueryResp,
      (snapshot_step true queries).1
        = ([.deleteSnapshot, .createSnapshot], true)
      ∧ (snapshot_step false queries).1 = ([.createSnapshot], false))
    ∧ (∀ (rest : List String) (k : Nat),
      pollLoop ("IN_PROGRESS" :: rest) k = pollLoop rest (k + 1))
    ∧ (∀ (states : List String) (k m : Nat),
      pollLoop states k = .success m →
      ∃ j, m = k + j
        ∧ states.take (j + 1) = List.replicate j "IN_PROGRESS" ++ ["SUCCESS"])
    ∧ (∀ (s : String) (rest : List String) (k : Nat),
      s = "FAILED" ∨ s ∉ knownSnapshotStates →
      pollLoop (s :: rest) k = .raised s k) := by
  refine ⟨fun queries => ⟨rfl, rfl⟩, fun rest k => by simp [pollLoop], ?_, ?_⟩
  · intro states
    induction states with
    | nil => intro k m h; simp [pollLoop] at h
    | cons s rest ih =>
        intro k m h
        by_cases hf : s = "FAILED"
        · rw [pollLoop, if_pos hf] at h
          simp at h
        · by_cases hip : s = "IN_PROGRESS"
          · rw [pollLoop, if_neg hf, if_pos hip] at h
            obtain ⟨j, hj, htake⟩ := ih (k + 1) m h
            refine ⟨j + 1, by omega, ?_⟩
            simp only [List.take_succ_cons, List.replicate_succ, List.cons_append,
              hip, htake]
          · by_cases hsc : s = "SUCCESS"
            · rw [pollLoop, if_neg hf, if_neg hip, if_pos hsc] at h
              simp only [PollResult.success.injEq] at h
              exact ⟨0, by omega, by simp [hsc]⟩
            · rw [pollLoop, if_neg hf, if_neg hip, if_neg hsc] at h
              simp at h
  · intro s rest k h
    rcases h with hf | hmem
    · rw [pollLoop, if_pos hf]
    · have h1 : s ≠ "FAILED" := by
        intro hh; exact hmem (by rw [hh]; decide)
      have h2 : s ≠ "IN_PROGRESS" := by
        intro hh; exact hmem (by rw [hh]; decide)
      have h3 : s ≠ "SUCCESS" := by
        intro hh; exact hmem (by rw [hh]; decide)
      rw [pollLoop, if_neg h1, if_neg h2, if_neg h3]

/-- Witness for C3 at concrete inputs: an existing snapshot is
deleted-then-recreated; `IN_PROGRESS` then `SUCCESS` returns after exactly
one sleep; `FAILED` and the out-of-vocabulary state `"WEIRD"` raise. -/
theorem snapshot_state_machine_witness :
    (snapshot_step true [⟨true, ["IN_PROGRESS"]⟩, ⟨true, ["SUCCESS"]⟩]).1
        = ([.deleteSnapshot, .createSnapshot], true)
    ∧ pollLoop ("IN_PROGRESS" :: ["SUCCESS"]) 0 = pollLoop ["SUCCESS"] 1
    ∧ (∃ j, 1 = 0 + j
        ∧ (["IN_PROGRESS", "SUCCESS"].take (j + 1)
            = List.replicate j "IN_PROGRESS" ++ ["SUCCESS"]))
    ∧ pollLoop ["FAILED", "SUCCESS"] 0 = .raised "FAILED" 0
    ∧ pollLoop ["WEIRD"] 5 = .raised "WEIRD" 5 :=
  ⟨(snapshot_state_machine.1 [⟨true, ["IN_PROGRESS"]⟩, ⟨true, ["SUCCESS"]⟩]).1,
   snapshot_state_machine.2.1 ["SUCCESS"] 0,
   snapshot_state_machine.2.2.1 ["IN_PROGRESS", "SUCCESS"] 0 1 rfl,
   snapshot_state_machine.2.2.2 "FAILED" ["SUCCESS"] 0 (Or.inl rfl),
   snapshot_state_machine.2.2.2 "WEIRD" [] 5 (Or.inr (by decide))⟩

end Biothings
